import Mathlib

/-!
Verification of the sandhole-benchmark repository: a load-generation
harness whose service half tunnels an HTTP server through a reverse SSH
port-forward.  The definitions below are a shallow embedding of the
Rust sources (`src/src/lib.rs`, `src/src/routes.rs`,
`src/service/src/ssh.rs`, `src/service/src/routes.rs`) together with
the documented semantics of the external `backon` retry crate that
`ssh_entrypoint` instantiates.  Byte strings are modelled as `List Nat`,
HTTP status codes as `Nat`, and a Rust panic as the absence of a
response (`Option`).
-/

namespace SandholeBench

/-- An HTTP response: status code plus body bytes.  `StatusCode.into_response`
produces an empty body; `Bytes.into_response` produces status 200 with the
bytes as body. -/
structure Response where
  status : Nat
  body : List Nat
deriving DecidableEq, Repr

/-- Embeds `get_handler` from `src/src/routes.rs`: if `file_size > data.len()`
respond 400 Bad Request, else respond with `data.slice(..file_size)`
(the first `file_size` bytes of the pre-generated buffer) as a 200 body. -/
def get_handler (file_size : Nat) (data : List Nat) : Response :=
  if data.length < file_size then
    ⟨400, []⟩
  else
    ⟨200, data.take file_size⟩

/-- State threaded through the `src/service/src/routes.rs` variant of
`get_handler`: the pre-generated buffer (`data.0 : Bytes`) and the shared
response-offset counter (`data.1 : AtomicU16`, always below 2^16). -/
structure ServiceGetState where
  data : List Nat
  counter : Nat
deriving DecidableEq, Repr

/-- Embeds `get_handler` from `src/service/src/routes.rs`: if
`file_size > data.0.len()` respond 400; otherwise read the counter with
`fetch_add(1)` (returning the old value `pad`, wrapping at 2^16) and respond
with `data.0.slice(pad..file_size + pad)`.  `Bytes::slice` panics when the
end index `file_size + pad` exceeds the buffer length; a panic is modelled
as a `none` response.  The updated counter state is returned alongside. -/
def service_get_handler (file_size : Nat) (st : ServiceGetState) :
    Option Response × ServiceGetState :=
  if st.data.length < file_size then
    (some ⟨400, []⟩, st)
  else
    let pad := st.counter
    let st2 : ServiceGetState := ⟨st.data, (st.counter + 1) % 65536⟩
    if file_size + pad ≤ st.data.length then
      (some ⟨200, (st.data.drop pad).take file_size⟩, st2)
    else
      (none, st2)

/-- Embeds `post_handler` (identical in `src/src/routes.rs` and
`src/service/src/routes.rs`): 204 No Content when the path parameter equals
the body length, 400 Bad Request otherwise. -/
def post_handler (file_size : Nat) (body : List Nat) : Nat :=
  if file_size = body.length then 204 else 400

/-- Embeds the `/post/{file_size}` route of `get_router` in `src/src/lib.rs`:
`post_handler` behind `DefaultBodyLimit::max(max_data_size)`.  Axum's `Bytes`
extractor rejects a request body longer than the configured limit with
413 Payload Too Large before the handler runs. -/
def post_route (max_data_size file_size : Nat) (body : List Nat) : Nat :=
  if max_data_size < body.length then 413 else post_handler file_size body

end SandholeBench

namespace SandholeBench

/-- C4: the claim states that every `GET /get/{file_size}` with
`file_size ≤ buffer length` yields a body of exactly `file_size` bytes.
This is false for the cited `src/service/src/routes.rs` variant: with a
4-byte buffer, counter value 3 and `file_size = 2 ≤ 4`, the slice
`3..5` is out of bounds and the handler panics (no response). -/
theorem get_service_variant_panics_within_bounds :
    2 ≤ (ServiceGetState.mk [0, 0, 0, 0] 3).data.length ∧
      (service_get_handler 2 (ServiceGetState.mk [0, 0, 0, 0] 3)).1 = none := by
  decide

/-- C4 (amended): for the stateless `get_handler` of `src/src/routes.rs` the
claim holds as stated: `file_size ≤ length` yields a 200 response whose body
is exactly the first `file_size` buffer bytes, and `file_size > length`
yields 400.  For the offset-counter variant of `src/service/src/routes.rs`,
`file_size > length` still yields 400, but a (200, `file_size`-byte) response
is produced only under the stronger precondition
`counter + file_size ≤ length`; when `file_size ≤ length < counter + file_size`
the slice panics and no response is produced. -/
theorem get_handler_size_contract :
    (∀ fs data : _, fs ≤ List.length data →
        get_handler fs data = ⟨200, data.take fs⟩ ∧
          (get_handler fs data).body.length = fs) ∧
    (∀ fs data : _, List.length data < fs → get_handler fs data = ⟨400, []⟩) ∧
    (∀ fs st, st.counter + fs ≤ st.data.length →
        ∃ r, (service_get_handler fs st).1 = some r ∧ r.status = 200 ∧
          r.body.length = fs) ∧
    (∀ fs st, fs ≤ st.data.length → st.data.length < st.counter + fs →
        (service_get_handler fs st).1 = none) ∧
    (∀ fs st, st.data.length < fs →
        (service_get_handler fs st).1 = some ⟨400, []⟩) := by
  refine ⟨fun fs data h => ?_, fun fs data h => ?_, fun fs st h => ?_,
    fun fs st h1 h2 => ?_, fun fs st h => ?_⟩
  · rw [get_handler, if_neg (by omega)]
    refine ⟨rfl, ?_⟩
    simp [List.length_take]
    omega
  · rw [get_handler, if_pos h]
  · have hfs : fs ≤ st.data.length := by omega
    refine ⟨⟨200, (st.data.drop st.counter).take fs⟩, ?_, rfl, ?_⟩
    · rw [service_get_handler, if_neg (by omega), if_pos (by omega)]
    · simp [List.length_take, List.length_drop]
      omega
  · rw [service_get_handler, if_neg (by omega), if_neg (by omega)]
  · rw [service_get_handler, if_pos h]

/-- C4 witness: the amended contract evaluated at concrete inputs. -/
theorem get_handler_size_contract_witness :
    get_handler 2 [9, 8, 7] = ⟨200, [9, 8]⟩ ∧
      (∃ r, (service_get_handler 3 (ServiceGetState.mk [1, 2, 3, 4, 5] 1)).1 =
        some r ∧ r.status = 200 ∧ r.body.length = 3) ∧
      (service_get_handler 5 (ServiceGetState.mk [1, 2, 3, 4, 5] 1)).1 = none :=
  ⟨(get_handler_size_contract.1 2 [9, 8, 7] (by decide)).1,
    get_handler_size_contract.2.2.1 3 (ServiceGetState.mk [1, 2, 3, 4, 5] 1)
      (by decide),
    get_handler_size_contract.2.2.2.1 5 (ServiceGetState.mk [1, 2, 3, 4, 5] 1)
      (by decide) (by decide)⟩

/-- C5: in the offset-counter variant, a request with
`file_size ≤ buffer length` panics exactly when the counter value `pad` read
for the request satisfies `pad + file_size > length` (the slice
`pad..file_size + pad` is out of bounds), and a response of exactly
`file_size` bytes is produced whenever `pad + file_size ≤ length`. -/
theorem service_get_handler_panic_condition :
    ∀ fs st : _,
      (fs ≤ st.data.length → st.data.length < st.counter + fs →
        (service_get_handler fs st).1 = none) ∧
      (st.counter + fs ≤ st.data.length →
        (service_get_handler fs st).1 =
          some ⟨200, (st.data.drop st.counter).take fs⟩ ∧
        ((st.data.drop st.counter).take fs).length = fs) := by
  intro fs st
  constructor
  · intro h1 h2
    rw [service_get_handler, if_neg (by omega), if_neg (by omega)]
  · intro h
    constructor
    · rw [service_get_handler, if_neg (by omega), if_pos (by omega)]
    · simp [List.length_take, List.length_drop]
      omega

/-- C5 witness: with a 4-byte buffer and counter 3, requesting 2 bytes
panics, while with counter 1 it returns exactly 2 bytes. -/
theorem service_get_handler_panic_condition_witness :
    (service_get_handler 2 (ServiceGetState.mk [4, 5, 6, 7] 3)).1 = none ∧
      (service_get_handler 2 (ServiceGetState.mk [4, 5, 6, 7] 1)).1 =
        some ⟨200, [5, 6]⟩ :=
  ⟨(service_get_handler_panic_condition 2 (ServiceGetState.mk [4, 5, 6, 7] 3)).1
      (by decide) (by decide),
    ((service_get_handler_panic_condition 2
      (ServiceGetState.mk [4, 5, 6, 7] 1)).2 (by decide)).1⟩

/-- C7: the claim quantifies over every body `B`, but the cited route is
wrapped in `DefaultBodyLimit::max(max_data_size)`: with `max_data_size = 1`
and body `[0, 0]`, the request `POST /post/2` has `n = len(B) = 2` yet is
rejected with 413, not 204. -/
theorem post_route_over_limit_not_204 :
    (2 = List.length [0, 0] ∧ post_route 1 2 [0, 0] = 413) ∧
      ¬ post_route 1 2 [0, 0] = 204 := by
  decide

/-- C7 (amended): for bodies within the configured limit
(`len(B) ≤ max_data_size`), `POST /post/{n}` returns 204 exactly when
`n = len(B)` and 400 exactly when `n ≠ len(B)`; a body exceeding the limit is
rejected with 413 regardless of `n`.  At the handler level (below the limit
layer) the 204/400 dichotomy holds for every body. -/
theorem post_route_status_contract :
    ∀ maxSize n B : _,
      (List.length B ≤ maxSize →
        ((post_route maxSize n B = 204 ↔ n = List.length B) ∧
          (post_route maxSize n B = 400 ↔ n ≠ List.length B))) ∧
      (maxSize < List.length B → post_route maxSize n B = 413) ∧
      (post_handler n B = 204 ↔ n = List.length B) := by
  intro maxSize n B
  have hh : post_handler n B = 204 ↔ n = List.length B := by
    rw [post_handler]
    split <;> simp_all
  refine ⟨fun h => ?_, fun h => ?_, hh⟩
  · rw [post_route, if_neg (by omega)]
    refine ⟨hh, ?_⟩
    rw [post_handler]
    split <;> simp_all
  · rw [post_route, if_pos h]

/-- C7 witness: the amended contract at concrete inputs: a matching length
below the limit gives 204, a mismatch gives 400, an over-limit body 413. -/
theorem post_route_status_contract_witness :
    post_route 10 1 [5] = 204 ∧ post_route 10 3 [5] = 400 ∧
      post_route 1 2 [6, 6] = 413 :=
  ⟨((post_route_status_contract 10 1 [5]).1 (by decide)).1.mpr (by decide),
    ((post_route_status_contract 10 3 [5]).1 (by decide)).2.mpr (by decide),
    (post_route_status_contract 1 2 [6, 6]).2.1 (by decide)⟩

end SandholeBench

namespace SandholeBench

/-- Messages deliverable on the control channel by `channel.wait()`
(russh's `ChannelMsg`), restricted to the constructors `start_forwarding`
distinguishes plus representatives of "any other message type"
(`eof`, `windowAdjusted`).  Field order of `extendedData` is (ext, data). -/
inductive ChannelMsg where
  | data (d : List Nat)
  | extendedData (ext : Nat) (d : List Nat)
  | success
  | close
  | exitStatus (s : Nat)
  | eof
  | windowAdjusted (n : Nat)
deriving DecidableEq, Repr

/-- The local standard streams written by `start_forwarding`, plus whether
`channel.eof()` (end-of-input on the channel) has been signalled. -/
structure StdStreams where
  stdout : List Nat
  stderr : List Nat
  sentEof : Bool
deriving DecidableEq, Repr

/-- Outcome of the `start_forwarding` event loop: a normal exit code, the
"Unexpected end of channel." error, or the "Unknown message type" error. -/
inductive ForwardResult where
  | exit (code : Nat) (streams : StdStreams)
  | endOfChannel (streams : StdStreams)
  | protocolViolation (streams : StdStreams)
deriving DecidableEq, Repr

/-- Embeds the event loop of `TcpForwardSession::start_forwarding`
(`src/service/src/ssh.rs` lines 94-122), driven by the list of messages the
control channel yields (list end models `channel.wait()` returning `None`):
`Data` appends to stdout; `ExtendedData` with `ext = 1` appends to stderr;
`Success` is ignored; `Close` breaks with code 0; `ExitStatus(s)` sends eof
on the channel and breaks with code `s`; any other message is the
"Unknown message type" error.  Local stream writes and `channel.eof()` are
modelled as infallible. -/
def start_forwarding_loop : List ChannelMsg → StdStreams → ForwardResult
  | [], st => .endOfChannel st
  | msg :: rest, st =>
    match msg with
    | .data d => start_forwarding_loop rest ⟨st.stdout ++ d, st.stderr, st.sentEof⟩
    | .extendedData 1 d =>
        start_forwarding_loop rest ⟨st.stdout, st.stderr ++ d, st.sentEof⟩
    | .success => start_forwarding_loop rest st
    | .close => .exit 0 st
    | .exitStatus s => .exit s ⟨st.stdout, st.stderr, true⟩
    | _ => .protocolViolation st

end SandholeBench

namespace SandholeBench

/-- C2: `start_forwarding` drains control-channel events in arrival order:
a `Data` payload goes to standard output; `ExtendedData` with `ext = 1` goes
to standard error; `Success` is ignored; `Close` returns exit code 0;
`ExitStatus(s)` signals end-of-input and returns `s`; every other message
type (`Eof`, `WindowAdjusted`, `ExtendedData` with `ext ≠ 1`) is an error.
In particular `Data("hello")` then `ExitStatus(0)` writes the bytes of
"hello" to standard output and returns exit code 0. -/
theorem start_forwarding_event_dispatch :
    (∀ d rest st, start_forwarding_loop (ChannelMsg.data d :: rest) st =
        start_forwarding_loop rest ⟨st.stdout ++ d, st.stderr, st.sentEof⟩) ∧
    (∀ d rest st,
        start_forwarding_loop (ChannelMsg.extendedData 1 d :: rest) st =
          start_forwarding_loop rest ⟨st.stdout, st.stderr ++ d, st.sentEof⟩) ∧
    (∀ rest st, start_forwarding_loop (ChannelMsg.success :: rest) st =
        start_forwarding_loop rest st) ∧
    (∀ rest st,
        start_forwarding_loop (ChannelMsg.close :: rest) st =
          ForwardResult.exit 0 st) ∧
    (∀ s rest st,
        start_forwarding_loop (ChannelMsg.exitStatus s :: rest) st =
          ForwardResult.exit s ⟨st.stdout, st.stderr, true⟩) ∧
    (∀ rest st, start_forwarding_loop (ChannelMsg.eof :: rest) st =
        ForwardResult.protocolViolation st) ∧
    (∀ n rest st,
        start_forwarding_loop (ChannelMsg.windowAdjusted n :: rest) st =
          ForwardResult.protocolViolation st) ∧
    (∀ d rest st,
        start_forwarding_loop (ChannelMsg.extendedData 0 d :: rest) st =
          ForwardResult.protocolViolation st) ∧
    (∀ e d rest st,
        start_forwarding_loop (ChannelMsg.extendedData (e + 2) d :: rest) st =
          ForwardResult.protocolViolation st) ∧
    start_forwarding_loop
        [ChannelMsg.data [104, 101, 108, 108, 111], ChannelMsg.exitStatus 0]
        ⟨[], [], false⟩ =
      ForwardResult.exit 0 ⟨[104, 101, 108, 108, 111], [], true⟩ :=
  ⟨fun _ _ _ => rfl, fun _ _ _ => rfl, fun _ _ => rfl, fun _ _ => rfl,
    fun _ _ _ => rfl, fun _ _ => rfl, fun _ _ _ => rfl, fun _ _ _ => rfl,
    fun _ _ _ _ => rfl, rfl⟩

/-- C10: if the control channel ends before any `Close` or `ExitStatus`,
`start_forwarding` returns the "Unexpected end of channel." error rather
than an exit code; an exit code `c` is returned only when an explicit
`Close` (then `c = 0`) or `ExitStatus c` message arrived. -/
theorem start_forwarding_exit_requires_signal :
    (∀ st, start_forwarding_loop [] st = ForwardResult.endOfChannel st) ∧
    (∀ msgs st c st2, start_forwarding_loop msgs st = ForwardResult.exit c st2 →
      ChannelMsg.close ∈ msgs ∨ ChannelMsg.exitStatus c ∈ msgs) := by
  constructor
  · intro st
    rfl
  · intro msgs
    induction msgs with
    | nil =>
      intro st c st2 h
      simp [start_forwarding_loop] at h
    | cons m rest ih =>
      intro st c st2 h
      cases m with
      | data d =>
        rcases ih _ _ _ h with h1 | h1
        · exact Or.inl (List.mem_cons_of_mem _ h1)
        · exact Or.inr (List.mem_cons_of_mem _ h1)
      | extendedData ext d =>
        match ext with
        | 0 => simp [start_forwarding_loop] at h
        | 1 =>
          rcases ih _ _ _ h with h1 | h1
          · exact Or.inl (List.mem_cons_of_mem _ h1)
          · exact Or.inr (List.mem_cons_of_mem _ h1)
        | e + 2 => simp [start_forwarding_loop] at h
      | success =>
        rcases ih _ _ _ h with h1 | h1
        · exact Or.inl (List.mem_cons_of_mem _ h1)
        · exact Or.inr (List.mem_cons_of_mem _ h1)
      | close =>
        exact Or.inl (List.mem_cons_self _ _)
      | exitStatus s =>
        have hs : s = c := by
          simpa [start_forwarding_loop] using congrArg
            (fun r => match r with
              | ForwardResult.exit code _ => code
              | _ => c) h
        exact Or.inr (hs ▸ List.mem_cons_self _ _)
      | eof => simp [start_forwarding_loop] at h
      | windowAdjusted n => simp [start_forwarding_loop] at h

/-- C10 witness: the empty channel errors out, and the exit of a
single-`Close` channel is accounted for by the `Close` message. -/
theorem start_forwarding_exit_requires_signal_witness :
    start_forwarding_loop [] ⟨[], [], false⟩ =
        ForwardResult.endOfChannel ⟨[], [], false⟩ ∧
      (ChannelMsg.close ∈ [ChannelMsg.close] ∨
        ChannelMsg.exitStatus 0 ∈ [ChannelMsg.close]) :=
  ⟨start_forwarding_exit_requires_signal.1 ⟨[], [], false⟩,
    start_forwarding_exit_requires_signal.2 [ChannelMsg.close] ⟨[], [], false⟩ 0
      ⟨[], [], false⟩ rfl⟩

end SandholeBench

namespace SandholeBench

/-- WebSocket frame kinds of axum's `ws::Message` (the echo loop treats them
uniformly; payloads are byte lists, text payload a `String`). -/
inductive WsMessage where
  | text (s : String)
  | binary (d : List Nat)
  | ping (d : List Nat)
  | pong (d : List Nat)
  | close
deriving DecidableEq, Repr

/-- One outcome of `socket.next().await` inside the echo loop:
`Some(Ok(message))` or `Some(Err(_))`; the end of the event list models
`None` (peer stream finished). -/
inductive WsEvent where
  | msg (m : WsMessage)
  | ioError
deriving DecidableEq, Repr

/-- Observable actions of the echo loop, in order: a frame read from the
socket, a frame successfully sent back, or a failed send attempt. -/
inductive WsAction where
  | recv (m : WsMessage)
  | send (m : WsMessage)
  | sendFailed (m : WsMessage)
deriving DecidableEq, Repr

/-- Embeds `ws_handler`'s upgrade closure (identical in `src/src/routes.rs`
and `src/service/src/routes.rs`): loop over `socket.next()`; on
`Some(Ok(message))` send the same message back, breaking if the send fails;
on `None` or `Some(Err(_))` break.  `sendOk n` tells whether the n-th send
succeeds. -/
def ws_echo_loop (sendOk : Nat → Bool) : List WsEvent → Nat → List WsAction
  | [], _ => []
  | WsEvent.ioError :: _, _ => []
  | WsEvent.msg m :: rest, n =>
    if sendOk n then
      WsAction.recv m :: WsAction.send m :: ws_echo_loop sendOk rest (n + 1)
    else
      [WsAction.recv m, WsAction.sendFailed m]

/-- The trace the spec demands of an echo loop: each received frame is sent
back, byte-identical, before the next frame is read. -/
def echoSpecTrace : List WsMessage → List WsAction
  | [] => []
  | m :: rest => WsAction.recv m :: WsAction.send m :: echoSpecTrace rest

theorem ws_echo_loop_all_ok (sendOk : Nat → Bool)
    (hok : ∀ k, sendOk k = true) :
    ∀ msgs n, ws_echo_loop sendOk (msgs.map WsEvent.msg) n = echoSpecTrace msgs := by
  intro msgs
  induction msgs with
  | nil => intro n; rfl
  | cons m rest ih =>
    intro n
    simp only [List.map_cons, ws_echo_loop, hok n, if_true, echoSpecTrace]
    rw [ih (n + 1)]

theorem echoSpecTrace_send_mem {m : WsMessage} :
    ∀ {msgs : List WsMessage}, m ∈ msgs → WsAction.send m ∈ echoSpecTrace msgs := by
  intro msgs
  induction msgs with
  | nil => intro h; cases h
  | cons a rest ih =>
    intro h
    rcases List.mem_cons.mp h with h1 | h1
    · subst h1
      exact List.mem_cons_of_mem _ (List.mem_cons_self _ _)
    · exact List.mem_cons_of_mem _ (List.mem_cons_of_mem _ (ih h1))

/-- C8: when every send succeeds, the echo loop over a peer stream of frames
`msgs` (followed by the peer closing the stream) produces exactly the trace
recv m1, send m1, recv m2, send m2, ..., i.e. every received frame is sent
back byte-identical before the next frame is read; in particular a binary
frame `F` among the received frames is echoed as an identical binary frame.
The loop ends exactly at stream end or at an I/O error. -/
theorem ws_echo_loopback (sendOk : Nat → Bool) (msgs : List WsMessage)
    (hok : ∀ k, sendOk k = true) :
    ws_echo_loop sendOk (msgs.map WsEvent.msg) 0 = echoSpecTrace msgs ∧
      (∀ F, WsMessage.binary F ∈ msgs →
        WsAction.send (WsMessage.binary F) ∈
          ws_echo_loop sendOk (msgs.map WsEvent.msg) 0) ∧
      (∀ rest n, ws_echo_loop sendOk (WsEvent.ioError :: rest) n = []) ∧
      (∀ n, ws_echo_loop sendOk [] n = []) := by
  have hmain := ws_echo_loop_all_ok sendOk hok msgs 0
  refine ⟨hmain, fun F hF => ?_, fun rest n => rfl, fun n => rfl⟩
  rw [hmain]
  exact echoSpecTrace_send_mem hF

/-- C8 witness: a peer that sends one binary frame `[7]` and then closes
gets it echoed back before the connection ends. -/
theorem ws_echo_loopback_witness :
    ws_echo_loop (fun _ => true) ([WsMessage.binary [7]].map WsEvent.msg) 0 =
        echoSpecTrace [WsMessage.binary [7]] ∧
      WsAction.send (WsMessage.binary [7]) ∈
        ws_echo_loop (fun _ => true) ([WsMessage.binary [7]].map WsEvent.msg) 0 :=
  ⟨(ws_echo_loopback (fun _ => true) [WsMessage.binary [7]] (fun _ => rfl)).1,
    (ws_echo_loopback (fun _ => true) [WsMessage.binary [7]] (fun _ => rfl)).2.1
      [7] (List.mem_cons_self _ _)⟩

/-- A presented SSH server public key, abstracted by the string rendering of
its SHA-256 fingerprint (what
`server_public_key.fingerprint(HashAlg::Sha256).to_string()` computes). -/
structure SshPublicKey where
  fingerprintSha256 : String
deriving DecidableEq, Repr

/-- The `Client` handler state of `src/service/src/ssh.rs` as far as
`check_server_key` reads it: the optional expected server fingerprint.
(The handler's other field, the HTTP service, plays no role here.) -/
structure ClientHandler where
  server_fingerprint : Option String
deriving DecidableEq, Repr

/-- Embeds `Client::check_server_key` (`src/service/src/ssh.rs` lines
141-150): with a configured fingerprint, accept iff the presented key's
SHA-256 fingerprint string equals it; with none configured, accept
unconditionally. -/
def check_server_key (c : ClientHandler) (server_public_key : SshPublicKey) : Bool :=
  match c.server_fingerprint with
  | some fp => server_public_key.fingerprintSha256 == fp
  | none => true

/-- C9: the host-key check accepts exactly when no expected fingerprint is
configured or the presented key's SHA-256 fingerprint is exactly the
configured one; any mismatch rejects. -/
theorem check_server_key_iff :
    ∀ c key, check_server_key c key = true ↔
      (c.server_fingerprint = none ∨
        c.server_fingerprint = some key.fingerprintSha256) := by
  intro c key
  cases c with
  | mk fpo =>
    cases fpo with
    | none => simp [check_server_key]
    | some fp =>
      simp only [check_server_key, beq_iff_eq, Option.some.injEq]
      constructor
      · intro h
        exact Or.inr h.symm
      · intro h
        rcases h with h | h
        · cases h
        · exact h.symm

end SandholeBench

namespace SandholeBench

/-- Configuration of the external backon crate's `ExponentialBuilder`, as
instantiated by `ssh_entrypoint` (`src/src/lib.rs` lines 70-77).  Durations
are in milliseconds.  Modelled from backon's documented semantics. -/
structure ExponentialBuilderM where
  minDelayMs : Nat
  maxDelayMs : Option Nat
  factor : Nat
  maxTimes : Option Nat
  jitter : Bool
deriving DecidableEq, Repr

/-- Backon's `ExponentialBuilder::default()`: no jitter, factor 2,
min_delay 1 s, max_delay 60 s, max_times 3. -/
def defaultExponentialBuilder : ExponentialBuilderM :=
  ⟨1000, some 60000, 2, some 3, false⟩

/-- Backon's `ExponentialBuilder::with_jitter`. -/
def with_jitter (b : ExponentialBuilderM) : ExponentialBuilderM :=
  ⟨b.minDelayMs, b.maxDelayMs, b.factor, b.maxTimes, true⟩

/-- Backon's `ExponentialBuilder::with_max_delay`. -/
def with_max_delay (b : ExponentialBuilderM) (ms : Nat) : ExponentialBuilderM :=
  ⟨b.minDelayMs, some ms, b.factor, b.maxTimes, b.jitter⟩

/-- The exact retry policy built in `ssh_entrypoint`:
`ExponentialBuilder::default().with_jitter().with_max_delay(20 s)`.
Note that `max_times` keeps its default value 3. -/
def entrypointBackoff : ExponentialBuilderM :=
  with_max_delay (with_jitter defaultExponentialBuilder) 20000

/-- Mutable state of backon's `ExponentialBackoff` iterator: retries yielded
so far and the current (pre-jitter) delay. -/
structure BackoffState where
  attempts : Nat
  currentDelay : Option Nat
deriving DecidableEq, Repr

/-- The iterator state backon starts each `retry` call with. -/
def initialBackoffState : BackoffState := ⟨0, none⟩

/-- One step of backon's `ExponentialBackoff` iterator: `none` once
`max_times` delays have been yielded; otherwise the first delay is
`min_delay` and each later delay is the previous one times `factor`, capped
at `max_delay`.  With jitter enabled, a sampled value `j` (uniform in
`[0, min_delay)`) is added on top of the (capped) delay. -/
def backoffNext (b : ExponentialBuilderM) (j : Nat) (st : BackoffState) :
    Option (Nat × BackoffState) :=
  let stop : Bool :=
    match b.maxTimes with
    | some m => decide (m ≤ st.attempts)
    | none => false
  if stop then none
  else
    let base :=
      match st.currentDelay with
      | none => b.minDelayMs
      | some cur =>
        match b.maxDelayMs with
        | some maxd => if cur < maxd then min (cur * b.factor) maxd else cur
        | none => cur * b.factor
    some (if b.jitter then base + j else base, ⟨st.attempts + 1, some base⟩)

/-- The list of delays a backoff iterator yields before exhausting, given
the stream `jit` of sampled jitter values (consumed from index `j` on). -/
def backoffDelays (b : ExponentialBuilderM) (jit : Nat → Nat) :
    Nat → BackoffState → Nat → List Nat
  | _, _, 0 => []
  | j, st, fuel + 1 =>
    match backoffNext b (jit j) st with
    | none => []
    | some (d, st2) => d :: backoffDelays b jit (j + 1) st2 fuel

/-- Environment driving one run of the supervisor loop: the outcome of the
n-th connect attempt (`TcpForwardSession::connect_key` succeeding), whether
the k-th established session's `start_forwarding` returns `Ok` (the
supervisor only logs this, so it is trace decoration), and the sampled
jitter values. -/
structure SupEnv where
  connect : Nat → Bool
  forwardOk : Nat → Bool
  jitter : Nat → Nat

/-- Observable events of a supervisor-loop run. -/
inductive SupEvent where
  | attempt (ok : Bool)
  | sleep (ms : Nat)
  | forwardDone (ok : Bool)
  | close
deriving DecidableEq, Repr

/-- Embeds backon's `Retryable::retry` as called in `ssh_entrypoint`: poll
the connect future; on success stop; on failure ask the backoff iterator for
the next delay, returning the failure when the iterator is exhausted, else
sleeping and retrying.  Returns (events, succeeded, next connect index, next
jitter index).  `fuel` bounds the recursion; since `entrypointBackoff`
yields at most `max_times = 3` delays, fuel 4 is exact for it (see
`retryRun_fuel_stable`). -/
def retryRun (b : ExponentialBuilderM) (env : SupEnv) (i j : Nat)
    (st : BackoffState) : Nat → List SupEvent × Bool × Nat × Nat
  | 0 => ([], false, i, j)
  | fuel + 1 =>
    if env.connect i then
      ([SupEvent.attempt true], true, i + 1, j)
    else
      match backoffNext b (env.jitter j) st with
      | none => ([SupEvent.attempt false], false, i + 1, j)
      | some (d, st2) =>
        let r := retryRun b env (i + 1) (j + 1) st2 fuel
        (SupEvent.attempt false :: SupEvent.sleep d :: r.1, r.2)

/-- Embeds the supervisor loop of `ssh_entrypoint` (`src/src/lib.rs` lines
58-87): each iteration runs `connect` under a freshly built
`entrypointBackoff` policy; if the retry gives up, the wrapped error
"SSH connection failed." is returned by `?` (terminating the run); on
success it runs `start_forwarding` (logging either outcome), attempts a
graceful close (failures logged only), and loops.  `iters` is observation
fuel: exhausting it yields `none`, meaning the loop is still running. -/
def sshEntrypointRun (env : SupEnv) : Nat → Nat → Nat → Nat →
    List SupEvent × Option String
  | _, _, _, 0 => ([], none)
  | i, j, k, iters + 1 =>
    let r := retryRun entrypointBackoff env i j initialBackoffState 4
    if r.2.1 then
      let rest := sshEntrypointRun env r.2.2.1 r.2.2.2 (k + 1) iters
      (r.1 ++ SupEvent.forwardDone (env.forwardOk k) :: SupEvent.close :: rest.1,
        rest.2)
    else
      (r.1, some "SSH connection failed.")

/-- The subsequence of sleep durations in an event trace. -/
def sleepsOf : List SupEvent → List Nat
  | [] => []
  | SupEvent.sleep d :: rest => d :: sleepsOf rest
  | _ :: rest => sleepsOf rest

/-- An environment in which every connect attempt fails. -/
def alwaysFailEnv : SupEnv := ⟨fun _ => false, fun _ => true, fun _ => 0⟩

/-- An environment in which connect attempts alternate failure/success and
every established session's forward registration fails. -/
def resetProbeEnv : SupEnv := ⟨fun i => i % 2 == 1, fun _ => false, fun _ => 0⟩

/-- Fuel 4 is exact for the `entrypointBackoff` policy: any larger fuel
gives the same `retryRun` result, because the backoff iterator stops after
`max_times = 3` delays. -/
theorem retryRun_fuel_stable (env : SupEnv) (i j : Nat) :
    ∀ fuel, retryRun entrypointBackoff env i j initialBackoffState (4 + fuel) =
      retryRun entrypointBackoff env i j initialBackoffState 4 := by
  intro fuel
  by_cases h0 : env.connect i <;> by_cases h1 : env.connect (i + 1) <;>
    by_cases h2 : env.connect (i + 2) <;> by_cases h3 : env.connect (i + 3) <;>
    simp [retryRun, backoffNext, entrypointBackoff, with_jitter, with_max_delay,
      defaultExponentialBuilder, initialBackoffState, h0, h1, h2, h3,
      show (4 : Nat) + fuel = (3 + fuel) + 1 by omega,
      show (3 : Nat) + fuel = (2 + fuel) + 1 by omega,
      show (2 : Nat) + fuel = (1 + fuel) + 1 by omega,
      show (1 : Nat) + fuel = 0 + fuel + 1 by omega]

end SandholeBench

namespace SandholeBench

/-- C1: the claim says `ssh_entrypoint` keeps retrying indefinitely and
never surfaces a connect failure.  This is false: the retry policy keeps
backon's default `max_times = 3`, so under sustained connectivity loss the
supervisor makes 4 connect attempts (with sleeps 1 s, 2 s, 4 s between
them) and then surfaces the wrapped error through `?`, terminating the
run (and hence the process). -/
theorem ssh_entrypoint_exits_on_sustained_failure :
    sshEntrypointRun alwaysFailEnv 0 0 0 1 =
      ([SupEvent.attempt false, SupEvent.sleep 1000, SupEvent.attempt false,
        SupEvent.sleep 2000, SupEvent.attempt false, SupEvent.sleep 4000,
        SupEvent.attempt false], some "SSH connection failed.") := by
  decide

/-- C1 (amended): within each supervisor iteration `ssh_entrypoint` retries
a failed connection at most 3 times (backon's default `max_times`), with
backoff sleeps of 1 s, 2 s and 4 s plus jitter; when the initial attempt
and all 3 retries fail consecutively, the error "SSH connection failed." is
surfaced to the top level and the loop (and the process) terminates, for
every starting position of the run. -/
theorem ssh_entrypoint_bounded_retries (env : SupEnv)
    (hfail : ∀ n, env.connect n = false) :
    ∀ i j k fuel,
      sshEntrypointRun env i j k (fuel + 1) =
        ([SupEvent.attempt false, SupEvent.sleep (1000 + env.jitter j),
          SupEvent.attempt false, SupEvent.sleep (2000 + env.jitter (j + 1)),
          SupEvent.attempt false, SupEvent.sleep (4000 + env.jitter (j + 2)),
          SupEvent.attempt false], some "SSH connection failed.") := by
  intro i j k fuel
  simp [sshEntrypointRun, retryRun, backoffNext, entrypointBackoff, with_jitter,
    with_max_delay, defaultExponentialBuilder, initialBackoffState, hfail]

/-- C1 witness: the amended bound evaluated on the all-failures environment
at a nonzero starting position. -/
theorem ssh_entrypoint_bounded_retries_witness :
    sshEntrypointRun alwaysFailEnv 5 2 1 3 =
      ([SupEvent.attempt false, SupEvent.sleep 1000, SupEvent.attempt false,
        SupEvent.sleep 2000, SupEvent.attempt false, SupEvent.sleep 4000,
        SupEvent.attempt false], some "SSH connection failed.") :=
  ssh_entrypoint_bounded_retries alwaysFailEnv (fun _ => rfl) 5 2 1 2

/-- C3: the claim says the backoff state resets to the base delay only
after a successful forward registration (reaching Forwarding).  This is
false: in a run whose connect attempts alternate fail/succeed while every
established session's forward registration fails, both retry sequences
sleep the base delay 1000 ms — the backoff resets at each supervisor
iteration (i.e. after every successful connect) although Forwarding was
never reached. -/
theorem backoff_resets_after_connect_not_forwarding :
    sshEntrypointRun resetProbeEnv 0 0 0 2 =
      ([SupEvent.attempt false, SupEvent.sleep 1000, SupEvent.attempt true,
        SupEvent.forwardDone false, SupEvent.close, SupEvent.attempt false,
        SupEvent.sleep 1000, SupEvent.attempt true, SupEvent.forwardDone false,
        SupEvent.close], none) ∧
      sleepsOf (sshEntrypointRun resetProbeEnv 0 0 0 2).1 = [1000, 1000] := by
  decide

/-- C3 (amended): within one retry sequence the policy yields at most
`max_times = 3` delays, 1000 + j0, 2000 + j1 and 4000 + j2 (jitter samples
below the 1000 ms base), which are strictly increasing and stay below the
configured 20 s cap; and the backoff state resets to the base delay at
every new supervisor iteration — i.e. after every successful connect,
whatever the forward-registration outcomes were. -/
theorem backoff_schedule_and_reset (jit : Nat → Nat) (fwd : Nat → Bool)
    (hj : ∀ n, jit n < 1000) :
    backoffDelays entrypointBackoff jit 0 initialBackoffState 10 =
        [1000 + jit 0, 2000 + jit 1, 4000 + jit 2] ∧
      1000 + jit 0 < 2000 + jit 1 ∧
      2000 + jit 1 < 4000 + jit 2 ∧
      (∀ d ∈ backoffDelays entrypointBackoff jit 0 initialBackoffState 10,
        d ≤ 20000) ∧
      sleepsOf (sshEntrypointRun ⟨fun i => i % 2 == 1, fwd, jit⟩ 0 0 0 2).1 =
        [1000 + jit 0, 1000 + jit 1] := by
  have hlist : backoffDelays entrypointBackoff jit 0 initialBackoffState 10 =
      [1000 + jit 0, 2000 + jit 1, 4000 + jit 2] := by
    simp [backoffDelays, backoffNext, entrypointBackoff, with_jitter,
      with_max_delay, defaultExponentialBuilder, initialBackoffState]
  refine ⟨hlist, ?_, ?_, ?_, ?_⟩
  · have := hj 0
    omega
  · have := hj 1
    omega
  · rw [hlist]
    intro d hd
    have h0 := hj 0
    have h1 := hj 1
    have h2 := hj 2
    rcases List.mem_cons.mp hd with h | h
    · omega
    rcases List.mem_cons.mp h with h | h
    · omega
    rcases List.mem_cons.mp h with h | h
    · omega
    · cases h
  · simp [sshEntrypointRun, retryRun, backoffNext, entrypointBackoff,
      with_jitter, with_max_delay, defaultExponentialBuilder,
      initialBackoffState, sleepsOf]

/-- C3 witness: the amended schedule with zero jitter: delays 1000, 2000,
4000 within a retry sequence, and base-delay sleeps in both iterations of
the alternating run. -/
theorem backoff_schedule_and_reset_witness :
    backoffDelays entrypointBackoff (fun _ => 0) 0 initialBackoffState 10 =
        [1000, 2000, 4000] ∧
      sleepsOf (sshEntrypointRun
          ⟨fun i => i % 2 == 1, fun _ => true, fun _ => 0⟩ 0 0 0 2).1 =
        [1000, 1000] :=
  ⟨(backoff_schedule_and_reset (fun _ => 0) (fun _ => true)
      (fun _ => by simp)).1,
    (backoff_schedule_and_reset (fun _ => 0) (fun _ => true)
      (fun _ => by simp)).2.2.2.2⟩

end SandholeBench
